import Mathlib

/-!
Verification of the 0ktopus challenge-response authentication system.

The frontend definitions are shallow embeddings of the TypeScript sources
(`src/frontend/src/services/authService.ts`, `src/frontend/src/hooks/useAuth.ts`,
`WalletConnected.tsx`). The backend (`api_server.py`) is not part of the
source tree; its components (Nonce Store, Challenge Issuer, Signature
Verifier, Ownership Oracle, Verification Orchestrator) are modelled from the
specification, with each such definition marked `Modelled from the spec:`.
-/

/-! ## Frontend: authService.ts -/

namespace AuthService

/-- An HTTP response as seen by the authService client code: the `ok` flag,
the parsed body's `error` field when the body carries one, and the parsed
body itself (of the endpoint's payload type `α`). -/
structure ApiResponse (α : Type) where
  ok : Bool
  errorField : Option String
  body : α

/-- JavaScript `e || fallback` on the string field `e`: `undefined`, `null`
and the empty string are falsy, so they select the fallback. -/
def jsOrString (v : Option String) (fallback : String) : String :=
  match v with
  | some s => if s = "" then fallback else s
  | none => fallback

/-- Embeds `requestChallenge` from authService.ts: throw on not-ok with the
body's error field (JS-or the fixed fallback), otherwise return the body. -/
def requestChallenge {α : Type} (r : ApiResponse α) : Except String α :=
  if r.ok then Except.ok r.body
  else Except.error (jsOrString r.errorField "Failed to request challenge")

/-- Embeds `verifySignature` from authService.ts. -/
def verifySignature {α : Type} (r : ApiResponse α) : Except String α :=
  if r.ok then Except.ok r.body
  else Except.error (jsOrString r.errorField "Signature verification failed")

/-- Embeds `getProtectedData` from authService.ts. -/
def getProtectedData {α : Type} (r : ApiResponse α) : Except String α :=
  if r.ok then Except.ok r.body
  else Except.error (jsOrString r.errorField "Failed to fetch protected data")

/-- Embeds `getUserInfo` from authService.ts. -/
def getUserInfo {α : Type} (r : ApiResponse α) : Except String α :=
  if r.ok then Except.ok r.body
  else Except.error (jsOrString r.errorField "Failed to fetch user info")

/-- The field names of the `Challenge` interface in authService.ts, in
declaration order: message, nonce, timestamp, address, domain. -/
def challengeInterfaceFields : List String :=
  ["message", "nonce", "timestamp", "address", "domain"]

end AuthService

/-- The field name `WalletConnected.tsx` reads from the body of a successful
`POST /auth/challenge` response (`data.challenge`). -/
def walletConnectedChallengeField : String := "challenge"

/-! ## Frontend: useAuth.ts -/

namespace UseAuth

/-- The `AuthState` record of useAuth.ts. Times are Unix seconds. -/
structure AuthState where
  isAuthenticated : Bool
  token : Option String
  tokenExpiry : Option Int
  isLoading : Bool
  error : Option String
deriving Repr, DecidableEq

/-- The initial `useState` value in useAuth.ts. -/
def initialState : AuthState :=
  { isAuthenticated := false, token := none, tokenExpiry := none,
    isLoading := false, error := none }

/-- The `AuthToken` interface from authService.ts as consumed by useAuth.ts. -/
structure AuthToken where
  access_token : String
  token_type : String
  expires_in : Int
deriving Repr, DecidableEq

/-- The mount effect of useAuth.ts: when localStorage holds a token and an
expiry and the expiry is strictly in the future, install them; otherwise
leave the state unchanged (the expired-token branch only clears storage). -/
def loadStoredToken (stored : Option (String × Int)) (now : Int) (s : AuthState) : AuthState :=
  match stored with
  | some (tok, expiry) =>
    if now < expiry then
      { isAuthenticated := true, token := some tok, tokenExpiry := some expiry,
        isLoading := false, error := none }
    else s
  | none => s

/-- The `authenticate` callback of useAuth.ts, as a function of the wallet's
active address and of the combined outcome of the
requestChallenge / signData / verifySignature sequence (`Except.ok` carries
the `AuthToken` the backend returned; `Except.error` carries the message of
whichever step threw). Returns the state it settles in. With no active
address it only records the error and stops loading; on success it installs
the token with expiry `now + expires_in`; on any thrown error it resets to
the logged-out state carrying the error message. -/
def authenticate (activeAddress : Option String) (outcome : Except String AuthToken)
    (now : Int) (s : AuthState) : AuthState :=
  match activeAddress with
  | none => { s with error := some "No wallet connected", isLoading := false }
  | some _ =>
    match outcome with
    | Except.ok tok =>
      { isAuthenticated := true, token := some tok.access_token,
        tokenExpiry := some (now + tok.expires_in), isLoading := false, error := none }
    | Except.error msg =>
      { isAuthenticated := false, token := none, tokenExpiry := none,
        isLoading := false, error := some msg }

/-- The `logout` callback of useAuth.ts. -/
def logout (_s : AuthState) : AuthState :=
  { isAuthenticated := false, token := none, tokenExpiry := none,
    isLoading := false, error := none }

/-- The state transitions useAuth.ts performs. -/
inductive AuthEvent where
  | mount (stored : Option (String × Int)) (now : Int)
  | auth (activeAddress : Option String) (outcome : Except String AuthToken) (now : Int)
  | logoutEv
deriving Repr

/-- Applies one useAuth.ts transition. -/
def step : AuthEvent → AuthState → AuthState
  | AuthEvent.mount st now, s => loadStoredToken st now s
  | AuthEvent.auth a o now, s => authenticate a o now s
  | AuthEvent.logoutEv, s => logout s

/-- The credential fields are set or cleared together: `isAuthenticated` is
true exactly when `token` is present, exactly when `tokenExpiry` is present. -/
def consistent (s : AuthState) : Bool :=
  (s.isAuthenticated == s.token.isSome) && (s.isAuthenticated == s.tokenExpiry.isSome)

/-- The `isTokenExpired` callback of useAuth.ts: no stored expiry counts as
expired; otherwise expired when `tokenExpiry <= now`. -/
def isTokenExpired (now : Int) (s : AuthState) : Bool :=
  match s.tokenExpiry with
  | none => true
  | some e => e ≤ now

/-- The `timeUntilExpiry` callback of useAuth.ts: `Math.max(0, tokenExpiry - now)`,
and 0 when no expiry is stored. -/
def timeUntilExpiry (now : Int) (s : AuthState) : Int :=
  match s.tokenExpiry with
  | none => 0
  | some e => max 0 (e - now)

/-- Line 107 of useAuth.ts: the client computes its local token expiry as
`now + expires_in` from its own clock reading. -/
def clientExpiry (now : Int) (expiresIn : Int) : Int := now + expiresIn

end UseAuth

/-! ## Backend model (api_server.py is not in the source tree) -/

namespace Backend

/-- Modelled from the spec: the Challenge record of the missing backend —
a nonce (random 256-bit value, represented as a Nat), the claimed address,
`issued_at`, and `expires_at = issued_at + 300s`. Times are Unix seconds. -/
structure Challenge where
  nonce : Nat
  address : String
  issued_at : Nat
  expires_at : Nat
deriving Repr, DecidableEq

/-- Modelled from the spec: the Nonce Store of the missing backend, a
key-value store keyed by address, as an association list. -/
abbrev NonceStore := List (String × Challenge)

/-- Looks up the entry stored under key `k`. -/
def lookupKey (s : NonceStore) (k : String) : Option Challenge :=
  match s.find? (fun p => p.fst == k) with
  | some p => some p.snd
  | none => none

/-- Removes every entry stored under key `k`. -/
def eraseKey (s : NonceStore) (k : String) : NonceStore :=
  s.filter (fun p => p.fst != k)

/-- Modelled from the spec: `put(key, value, ttl)` of the missing Nonce
Store — records the value under the key, overwriting any prior entry. -/
def put (s : NonceStore) (k : String) (c : Challenge) : NonceStore :=
  (k, c) :: eraseKey s k

/-- Modelled from the spec: `takeIfValid(key)` of the missing Nonce Store —
returns the stored value and deletes it (single use) when the entry exists
and has not passed its expiry; an expired entry is swept on access and
reported as not found. -/
def takeIfValid (s : NonceStore) (k : String) (now : Nat) : Option Challenge × NonceStore :=
  match lookupKey s k with
  | none => (none, s)
  | some c =>
    if now ≤ c.expires_at then (some c, eraseKey s k)
    else (none, eraseKey s k)

/-- Modelled from the spec: the challenge TTL, 300 seconds. -/
def challengeTTL : Nat := 300

/-- Modelled from the spec: `issue(address)` of the missing Challenge
Issuer — builds a challenge with the given fresh nonce, `issued_at := now`,
`expires_at := now + 300`, and stores it under the address, overwriting any
prior unconsumed challenge for that address. -/
def issue (s : NonceStore) (address : String) (nonce : Nat) (now : Nat) :
    Challenge × NonceStore :=
  let c : Challenge :=
    { nonce := nonce, address := address, issued_at := now,
      expires_at := now + challengeTTL }
  (c, put s address c)

/-- Modelled from the spec: the deterministic byte/string serialization of a
challenge that the client must sign, reproduced identically by the Verifier. -/
def serializeChallenge (c : Challenge) : String :=
  c.address ++ ":" ++ toString c.nonce ++ ":" ++ toString c.issued_at
    ++ ":" ++ toString c.expires_at

/-- Modelled from the spec: the body of a successful `POST /auth/challenge`
response — exactly the fields nonce, message, address and expires_at, the
message field being the serialization the client must sign. -/
def challengeBody (c : Challenge) : List (String × String) :=
  [("nonce", toString c.nonce),
   ("message", serializeChallenge c),
   ("address", c.address),
   ("expires_at", toString c.expires_at)]

/-- Modelled from the spec: the Session Credential of the missing Session
Token Issuer. -/
structure SessionCredential where
  subject : String
  asset_id : Nat
  issued_at : Nat
  expires_at : Nat
deriving Repr, DecidableEq

/-- Modelled from the spec: the fixed session lifetime, 3600 seconds. -/
def sessionLifetime : Nat := 3600

/-- Modelled from the spec: `issue(address, assetId)` of the missing Session
Token Issuer — `subject := address`, `asset_id := assetId`,
`issued_at := now`, `expires_at := issued_at + 3600`. -/
def issueCredential (address : String) (assetId : Nat) (now : Nat) : SessionCredential :=
  { subject := address, asset_id := assetId, issued_at := now,
    expires_at := now + sessionLifetime }

/-- Modelled from the spec: the HTTP body of a successful `POST /auth/verify`
response. -/
structure TokenResponse where
  access_token : String
  token_type : String
  expires_in : Nat
deriving Repr, DecidableEq

/-- Modelled from the spec: the accepted-verification response —
`token_type` is the string Bearer and `expires_in` is 3600. -/
def acceptedResponse (tok : String) : TokenResponse :=
  { access_token := tok, token_type := "Bearer", expires_in := sessionLifetime }

/-- Modelled from the spec: what the Ownership Oracle reports for one
verification — either the on-chain balance, or `UpstreamUnavailable` after
its timeout and retry budget are exhausted. -/
inductive OracleResult where
  | balance (n : Nat)
  | upstreamUnavailable
deriving Repr, DecidableEq

/-- Modelled from the spec: the terminal outcomes of the Verification
Orchestrator for one `/auth/verify` call. -/
inductive VerifyOutcome where
  | accepted (cred : SessionCredential)
  | challengeExpiredOrUnknown
  | invalidSignature
  | nftNotOwned
  | upstreamUnavailable
deriving Repr, DecidableEq

/-- Modelled from the spec: one `/auth/verify` request together with the
environment of this call — the submitted address and challenge nonce, the
Signature Verifier's verdict over the stored challenge bytes for this
request, and the Ownership Oracle's report for this request. -/
structure VerifyRequest where
  address : String
  nonce : Nat
  sigValid : Bool
  oracle : OracleResult
deriving Repr, DecidableEq

/-- Modelled from the spec: the missing Verification Orchestrator's
`/auth/verify` handler. It first attempts `takeIfValid` on the nonce store;
failure, or a submitted challenge whose nonce differs from the stored one,
is the terminal `ChallengeExpiredOrUnknown`. On success it performs
signature verification, then the ownership query; a zero balance is
`NFTNotOwned`, an unavailable upstream is `UpstreamUnavailable`, and both
checks passing is `Accepted` with a fresh Session Credential. -/
def verifyEndpoint (s : NonceStore) (now : Nat) (assetId : Nat) (r : VerifyRequest) :
    VerifyOutcome × NonceStore :=
  match takeIfValid s r.address now with
  | (none, s1) => (VerifyOutcome.challengeExpiredOrUnknown, s1)
  | (some c, s1) =>
    if c.nonce ≠ r.nonce then (VerifyOutcome.challengeExpiredOrUnknown, s1)
    else if r.sigValid then
      match r.oracle with
      | OracleResult.upstreamUnavailable => (VerifyOutcome.upstreamUnavailable, s1)
      | OracleResult.balance n =>
        if n = 0 then (VerifyOutcome.nftNotOwned, s1)
        else (VerifyOutcome.accepted (issueCredential r.address assetId now), s1)
    else (VerifyOutcome.invalidSignature, s1)

/-- A backend operation that touches the nonce store. -/
inductive Op where
  | issueOp (address : String) (nonce : Nat) (now : Nat)
  | verifyOp (now : Nat) (assetId : Nat) (r : VerifyRequest)
deriving Repr

/-- The store after one backend operation. -/
def applyOp (s : NonceStore) : Op → NonceStore
  | Op.issueOp a n t => (issue s a n t).snd
  | Op.verifyOp t aid r => (verifyEndpoint s t aid r).snd

/-- The store after a sequence of backend operations. -/
def runOps (s : NonceStore) : List Op → NonceStore
  | [] => s
  | op :: ops => runOps (applyOp s op) ops

/-- Whether an operation can put a challenge with nonce `n` into the store
(only issuing with that very nonce can; nonces are unique per issuance). -/
def opIntroduces (n : Nat) : Op → Bool
  | Op.issueOp _ m _ => m == n
  | Op.verifyOp _ _ _ => false

/-- No entry of the store carries nonce `n`. -/
def noNonce (s : NonceStore) (n : Nat) : Prop :=
  ∀ p ∈ s, p.snd.nonce ≠ n

instance (s : NonceStore) (n : Nat) : Decidable (noNonce s n) := by
  unfold noNonce
  infer_instance

/-- Runs the same `/auth/verify` request `n` times in sequence against the
store: the serialization of `n` racing verify calls that the atomic
`takeIfValid` imposes. Returns the outcomes in order and the final store. -/
def runSameVerify (s : NonceStore) (now : Nat) (assetId : Nat) (r : VerifyRequest) :
    Nat → List VerifyOutcome × NonceStore
  | 0 => ([], s)
  | Nat.succ k =>
    let step1 := verifyEndpoint s now assetId r
    let rest := runSameVerify step1.snd now assetId r k
    (step1.fst :: rest.fst, rest.snd)

/-- Tests whether an outcome is `Accepted`. -/
def isAccepted : VerifyOutcome → Bool
  | VerifyOutcome.accepted _ => true
  | _ => false

/-- Tests whether an outcome is `ChallengeExpiredOrUnknown`. -/
def isExpiredOrUnknown : VerifyOutcome → Bool
  | VerifyOutcome.challengeExpiredOrUnknown => true
  | _ => false

end Backend

/-! ## Signature Verifier model -/

namespace SigVerifier

/-- Modelled from the spec: the error taxonomy of the missing Signature
Verifier — a checksum mismatch while decoding the address, and a malformed
signature encoding. -/
inductive VerifyError where
  | invalidAddress
  | malformedSignature
deriving Repr, DecidableEq

/-- Modelled from the spec: the pluggable cryptographic capability — address
decoding (checksum validation recovering the embedded public key of type
`K`), signature decoding (into type `S`), and the ledger's elliptic-curve
check of a signature over message bytes of type `M`. -/
structure CryptoScheme (K S M : Type) where
  decodeAddress : String → Option K
  decodeSignature : String → Option S
  checkSig : K → M → S → Bool

/-- Modelled from the spec: `verify(address, message, signature)` of the
missing Signature Verifier — an address whose checksum does not match is
`InvalidAddress`; a malformed signature encoding is `MalformedSignature`;
otherwise the cryptographic check runs and its boolean verdict is returned,
false on mismatch, without throwing. -/
def verify {K S M : Type} (C : CryptoScheme K S M) (address : String) (msg : M)
    (sig : String) : Except VerifyError Bool :=
  match C.decodeAddress address with
  | none => Except.error VerifyError.invalidAddress
  | some pk =>
    match C.decodeSignature sig with
    | none => Except.error VerifyError.malformedSignature
    | some sg => Except.ok (C.checkSig pk msg sg)

end SigVerifier

/-! ## Helper lemmas: nonce store -/

namespace Backend

theorem lookupKey_mem {s : NonceStore} {k : String} {c : Challenge}
    (h : lookupKey s k = some c) : (k, c) ∈ s := by
  unfold lookupKey at h
  cases hf : s.find? (fun p => p.fst == k) with
  | none => rw [hf] at h; exact absurd h (by simp)
  | some p =>
    rw [hf] at h
    have hp := List.find?_some hf
    have hm := List.mem_of_find?_eq_some hf
    obtain ⟨p1, p2⟩ := p
    simp only [beq_iff_eq] at hp
    simp only [Option.some.injEq] at h
    subst hp
    subst h
    exact hm

theorem mem_eraseKey {p : String × Challenge} {s : NonceStore} {k : String}
    (h : p ∈ eraseKey s k) : p ∈ s ∧ p.fst ≠ k := by
  unfold eraseKey at h
  refine ⟨List.mem_of_mem_filter h, ?_⟩
  have := List.of_mem_filter h
  simpa [bne_iff_ne] using this

theorem lookupKey_eraseKey_self (s : NonceStore) (k : String) :
    lookupKey (eraseKey s k) k = none := by
  unfold lookupKey
  cases hf : (eraseKey s k).find? (fun p => p.fst == k) with
  | none => rfl
  | some p =>
    exfalso
    have hp := List.find?_some hf
    have hm := List.mem_of_find?_eq_some hf
    simp only [beq_iff_eq] at hp
    exact (mem_eraseKey hm).2 hp

theorem lookupKey_put_self (s : NonceStore) (k : String) (c : Challenge) :
    lookupKey (put s k c) k = some c := by
  unfold lookupKey put
  simp [List.find?]

theorem noNonce_eraseKey {s : NonceStore} {n : Nat} (k : String) (h : noNonce s n) :
    noNonce (eraseKey s k) n :=
  fun p hp => h p (mem_eraseKey hp).1

theorem noNonce_put {s : NonceStore} {n : Nat} {k : String} {c : Challenge}
    (h : noNonce s n) (hc : c.nonce ≠ n) : noNonce (put s k c) n := by
  intro p hp
  unfold put at hp
  rcases List.mem_cons.mp hp with h1 | h2
  · subst h1; exact hc
  · exact noNonce_eraseKey k h p h2

theorem takeIfValid_snd_cases (s : NonceStore) (k : String) (now : Nat) :
    (takeIfValid s k now).snd = s ∨ (takeIfValid s k now).snd = eraseKey s k := by
  unfold takeIfValid
  cases hl : lookupKey s k with
  | none => left; rfl
  | some c =>
    right
    by_cases ht : now ≤ c.expires_at <;> simp [ht]

theorem noNonce_takeIfValid_snd {s : NonceStore} {n : Nat} (k : String) (now : Nat)
    (h : noNonce s n) : noNonce (takeIfValid s k now).snd n := by
  rcases takeIfValid_snd_cases s k now with he | he <;> rw [he]
  · exact h
  · exact noNonce_eraseKey k h

theorem takeIfValid_some_inv {s : NonceStore} {k : String} {now : Nat} {c : Challenge}
    {s1 : NonceStore} (h : takeIfValid s k now = (some c, s1)) :
    lookupKey s k = some c ∧ now ≤ c.expires_at ∧ s1 = eraseKey s k := by
  unfold takeIfValid at h
  cases hl : lookupKey s k with
  | none => rw [hl] at h; simp at h
  | some c0 =>
    rw [hl] at h
    by_cases ht : now ≤ c0.expires_at
    · simp only [if_pos ht, Prod.mk.injEq, Option.some.injEq] at h
      obtain ⟨h1, h2⟩ := h
      subst h1
      exact ⟨rfl, ht, h2.symm⟩
    · simp [if_neg ht] at h

theorem verifyEndpoint_snd_eq (s : NonceStore) (now assetId : Nat) (r : VerifyRequest) :
    (verifyEndpoint s now assetId r).snd = (takeIfValid s r.address now).snd := by
  unfold verifyEndpoint
  cases htv : takeIfValid s r.address now with
  | mk o s1 =>
    cases o with
    | none => rfl
    | some c =>
      by_cases hnc : c.nonce ≠ r.nonce
      · simp [hnc]
      · cases hsv : r.sigValid with
        | false => simp [hnc, hsv]
        | true =>
          cases hor : r.oracle with
          | upstreamUnavailable => simp [hnc, hsv, hor]
          | balance n =>
            by_cases hb : n = 0 <;> simp [hnc, hsv, hor, hb]

theorem noNonce_verifyEndpoint_snd {s : NonceStore} {n : Nat} (now assetId : Nat)
    (r : VerifyRequest) (h : noNonce s n) :
    noNonce (verifyEndpoint s now assetId r).snd n := by
  rw [verifyEndpoint_snd_eq]
  exact noNonce_takeIfValid_snd _ _ h

theorem verifyEndpoint_expired_of_noNonce {s : NonceStore} {now assetId : Nat}
    {r : VerifyRequest} (h : noNonce s r.nonce) :
    (verifyEndpoint s now assetId r).fst = VerifyOutcome.challengeExpiredOrUnknown := by
  unfold verifyEndpoint
  cases htv : takeIfValid s r.address now with
  | mk o s1 =>
    cases o with
    | none => rfl
    | some c =>
      have hl := (takeIfValid_some_inv htv).1
      have hnc : c.nonce ≠ r.nonce := h _ (lookupKey_mem hl)
      simp [hnc]

theorem verifyEndpoint_accepted_inv {s : NonceStore} {now assetId : Nat}
    {r : VerifyRequest} {cred : SessionCredential}
    (h : (verifyEndpoint s now assetId r).fst = VerifyOutcome.accepted cred) :
    cred = issueCredential r.address assetId now ∧
    (verifyEndpoint s now assetId r).snd = eraseKey s r.address ∧
    r.sigValid = true ∧
    (∃ b, r.oracle = OracleResult.balance b ∧ b ≠ 0) := by
  revert h
  unfold verifyEndpoint
  cases htv : takeIfValid s r.address now with
  | mk o s1 =>
    cases o with
    | none => intro h; simp at h
    | some c =>
      have hs1 := (takeIfValid_some_inv htv).2.2
      by_cases hnc : c.nonce ≠ r.nonce
      · intro h; simp [hnc] at h
      · cases hsv : r.sigValid with
        | false => intro h; simp [hnc, hsv] at h
        | true =>
          cases hor : r.oracle with
          | upstreamUnavailable => intro h; simp [hnc, hsv, hor] at h
          | balance b =>
            by_cases hb : b = 0
            · intro h; simp [hnc, hsv, hor, hb] at h
            · intro h
              simp [hnc, hsv, hor, hb] at h
              subst h
              refine ⟨rfl, ?_, rfl, ⟨b, rfl, hb⟩⟩
              simp [hnc, hsv, hor, hb, hs1]

theorem noNonce_issue_snd {s : NonceStore} {n m : Nat} (a : String) (t : Nat)
    (h : noNonce s n) (hm : m ≠ n) : noNonce (issue s a m t).snd n :=
  noNonce_put h hm

theorem noNonce_runOps {n : Nat} (ops : List Op) {s : NonceStore}
    (h : noNonce s n) (hfresh : ∀ op ∈ ops, opIntroduces n op = false) :
    noNonce (runOps s ops) n := by
  induction ops generalizing s with
  | nil => exact h
  | cons op ops ih =>
    have hstep : noNonce (applyOp s op) n := by
      cases op with
      | issueOp a m t =>
        have hmb : (m == n) = false := hfresh _ (List.mem_cons_self _ _)
        have hm : m ≠ n := by simpa using hmb
        exact noNonce_issue_snd a t h hm
      | verifyOp t aid r => exact noNonce_verifyEndpoint_snd t aid r h
    exact ih hstep (fun op' hop' => hfresh _ (List.mem_cons_of_mem _ hop'))

theorem verifyEndpoint_success {s : NonceStore} {now assetId : Nat} {r : VerifyRequest}
    {c : Challenge} {b : Nat}
    (hl : lookupKey s r.address = some c) (hnc : c.nonce = r.nonce)
    (ht : now ≤ c.expires_at) (hsig : r.sigValid = true)
    (hor : r.oracle = OracleResult.balance b) (hb : b ≠ 0) :
    verifyEndpoint s now assetId r =
      (VerifyOutcome.accepted (issueCredential r.address assetId now),
       eraseKey s r.address) := by
  unfold verifyEndpoint takeIfValid
  rw [hl]
  simp [ht, hnc, hsig, hor, hb]

theorem verifyEndpoint_notFound {s : NonceStore} {now assetId : Nat} {r : VerifyRequest}
    (hl : lookupKey s r.address = none) :
    verifyEndpoint s now assetId r = (VerifyOutcome.challengeExpiredOrUnknown, s) := by
  unfold verifyEndpoint takeIfValid
  rw [hl]

theorem runSameVerify_notFound {s : NonceStore} {now assetId : Nat} {r : VerifyRequest}
    (hl : lookupKey s r.address = none) (k : Nat) :
    runSameVerify s now assetId r k =
      (List.replicate k VerifyOutcome.challengeExpiredOrUnknown, s) := by
  induction k with
  | zero => rfl
  | succ k ih =>
    show (let step1 := verifyEndpoint s now assetId r
          let rest := runSameVerify step1.snd now assetId r k
          (step1.fst :: rest.fst, rest.snd)) = _
    rw [verifyEndpoint_notFound hl]
    simp only []
    rw [ih]
    rfl

theorem countP_replicate_eq {α : Type} (p : α → Bool) (a : α) (k : Nat) :
    (List.replicate k a).countP p = if p a then k else 0 := by
  induction k with
  | zero => simp
  | succ k ih =>
    rw [List.replicate_succ, List.countP_cons, ih]
    by_cases hp : p a <;> simp [hp]

end Backend

/-! ## Claim theorems -/

/-- C8 counterexample: from an authenticated state, calling `authenticate`
with no active wallet address fails (it records the error message) but does
not clear the three credential fields — refuting the sentence that any error
during authenticate clears all three. -/
theorem c8_counterexample :
    (UseAuth.authenticate none (Except.error "network error") 0
        { isAuthenticated := true, token := some "tok", tokenExpiry := some 100,
          isLoading := false, error := none }).error = some "No wallet connected" ∧
    (UseAuth.authenticate none (Except.error "network error") 0
        { isAuthenticated := true, token := some "tok", tokenExpiry := some 100,
          isLoading := false, error := none }).token = some "tok" ∧
    (UseAuth.authenticate none (Except.error "network error") 0
        { isAuthenticated := true, token := some "tok", tokenExpiry := some 100,
          isLoading := false, error := none }).isAuthenticated = true :=
  ⟨rfl, rfl, rfl⟩

/-- C8 (amended): the useAuth credential fields are set or cleared together —
the invariant holds in the initial state and is preserved by every
transition (mount load, authenticate, logout); any error thrown during the
challenge-sign-verify sequence resets the state to logged-out with the
error message; the early no-wallet failure only records the error message
and stops loading, leaving the three credential fields unchanged. -/
theorem c8_state_consistency :
    UseAuth.consistent UseAuth.initialState = true ∧
    (∀ e s, UseAuth.consistent s = true → UseAuth.consistent (UseAuth.step e s) = true) ∧
    (∀ (a : String) (o : Except String UseAuth.AuthToken) (now : Int)
        (s : UseAuth.AuthState) (msg : String), o = Except.error msg →
      UseAuth.authenticate (some a) o now s =
        { isAuthenticated := false, token := none, tokenExpiry := none,
          isLoading := false, error := some msg }) ∧
    (∀ (o : Except String UseAuth.AuthToken) (now : Int) (s : UseAuth.AuthState),
      UseAuth.authenticate none o now s =
        { s with error := some "No wallet connected", isLoading := false }) := by
  refine ⟨rfl, ?_, ?_, ?_⟩
  · intro e s h
    cases e with
    | mount st now =>
      cases st with
      | none => exact h
      | some pr =>
        obtain ⟨tok, expiry⟩ := pr
        by_cases hlt : now < expiry
        · simp [UseAuth.step, UseAuth.loadStoredToken, hlt, UseAuth.consistent]
        · simpa [UseAuth.step, UseAuth.loadStoredToken, hlt] using h
    | auth a o now =>
      cases a with
      | none => simpa [UseAuth.step, UseAuth.authenticate, UseAuth.consistent] using h
      | some ad =>
        cases o with
        | ok tok => simp [UseAuth.step, UseAuth.authenticate, UseAuth.consistent]
        | error msg => simp [UseAuth.step, UseAuth.authenticate, UseAuth.consistent]
    | logoutEv => rfl
  · intro a o now s msg ho
    subst ho
    rfl
  · intro o now s
    rfl

/-- C8 witness: the preservation clause applied to a logout from the initial
state. -/
theorem c8_witness :
    UseAuth.consistent (UseAuth.step UseAuth.AuthEvent.logoutEv UseAuth.initialState) = true :=
  c8_state_consistency.2.1 UseAuth.AuthEvent.logoutEv UseAuth.initialState (by decide)

/-- C9: for every auth state and every current time, `timeUntilExpiry` is
non-negative, `isTokenExpired` holds exactly when `timeUntilExpiry` is zero,
and a state with no stored expiry is reported expired with zero remaining. -/
theorem c9_expiry_helpers (s : UseAuth.AuthState) (now : Int) :
    0 ≤ UseAuth.timeUntilExpiry now s ∧
    (UseAuth.isTokenExpired now s = true ↔ UseAuth.timeUntilExpiry now s = 0) ∧
    (s.tokenExpiry = none →
      UseAuth.isTokenExpired now s = true ∧ UseAuth.timeUntilExpiry now s = 0) := by
  unfold UseAuth.isTokenExpired UseAuth.timeUntilExpiry
  cases hte : s.tokenExpiry with
  | none => simp
  | some e =>
    refine ⟨le_max_left 0 (e - now), ?_, fun h => absurd h (by simp)⟩
    simp only [decide_eq_true_eq]
    constructor
    · intro h
      omega
    · intro h
      omega

/-- C9 witness: the no-expiry clause at the initial state and time 5. -/
theorem c9_witness :
    UseAuth.isTokenExpired 5 UseAuth.initialState = true ∧
    UseAuth.timeUntilExpiry 5 UseAuth.initialState = 0 :=
  (c9_expiry_helpers UseAuth.initialState 5).2.2 rfl

/-- C10 counterexample: a not-ok response whose body's error field is
present but empty yields the fixed fallback message, not the (empty) error
field — refuting the sentence that the error field is used as the message
whenever present. -/
theorem c10_counterexample :
    AuthService.requestChallenge
        { ok := false, errorField := some "", body := (0 : Nat) }
      = Except.error "Failed to request challenge" ∧
    ("" : String) ≠ "Failed to request challenge" :=
  ⟨rfl, by decide⟩

/-- C10 (amended): each API-client function throws exactly when the response
has `ok` false, using the body's error field as the message when it is
present and non-empty (JS truthiness), otherwise that function's fixed
fallback message; every ok response returns the parsed body unchanged. -/
theorem c10_api_error_protocol {α : Type} (r : AuthService.ApiResponse α) :
    (r.ok = true →
      AuthService.requestChallenge r = Except.ok r.body ∧
      AuthService.verifySignature r = Except.ok r.body ∧
      AuthService.getProtectedData r = Except.ok r.body ∧
      AuthService.getUserInfo r = Except.ok r.body) ∧
    (r.ok = false →
      (∀ m, r.errorField = some m → m ≠ "" →
        AuthService.requestChallenge r = Except.error m ∧
        AuthService.verifySignature r = Except.error m ∧
        AuthService.getProtectedData r = Except.error m ∧
        AuthService.getUserInfo r = Except.error m) ∧
      ((r.errorField = none ∨ r.errorField = some "") →
        AuthService.requestChallenge r = Except.error "Failed to request challenge" ∧
        AuthService.verifySignature r = Except.error "Signature verification failed" ∧
        AuthService.getProtectedData r = Except.error "Failed to fetch protected data" ∧
        AuthService.getUserInfo r = Except.error "Failed to fetch user info")) := by
  constructor
  · intro hok
    unfold AuthService.requestChallenge AuthService.verifySignature
      AuthService.getProtectedData AuthService.getUserInfo
    simp [hok]
  · intro hok
    constructor
    · intro m hm hne
      unfold AuthService.requestChallenge AuthService.verifySignature
        AuthService.getProtectedData AuthService.getUserInfo
      simp [hok, AuthService.jsOrString, hm, hne]
    · intro hcase
      unfold AuthService.requestChallenge AuthService.verifySignature
        AuthService.getProtectedData AuthService.getUserInfo
      rcases hcase with hc | hc <;> simp [hok, AuthService.jsOrString, hc]

/-- C10 witness: the ok clause at a concrete ok response. -/
theorem c10_witness :
    AuthService.requestChallenge { ok := true, errorField := none, body := (42 : Nat) }
        = Except.ok 42 ∧
    AuthService.verifySignature { ok := true, errorField := none, body := (42 : Nat) }
        = Except.ok 42 ∧
    AuthService.getProtectedData { ok := true, errorField := none, body := (42 : Nat) }
        = Except.ok 42 ∧
    AuthService.getUserInfo { ok := true, errorField := none, body := (42 : Nat) }
        = Except.ok 42 :=
  (c10_api_error_protocol _).1 rfl

/-- C2 counterexample: the frontend `Challenge` interface declares a field
named timestamp (and expects no expires_at), while the challenge response
body has no such field, and the field WalletConnected.tsx reads is absent
from the response body — refuting the sentence that the frontend agrees
with the response shape. -/
theorem c2_counterexample :
    "timestamp" ∈ AuthService.challengeInterfaceFields ∧
    "timestamp" ∉ (Backend.challengeBody
        { nonce := 1, address := "WALLET1", issued_at := 0, expires_at := 300 }).map Prod.fst ∧
    walletConnectedChallengeField ∉ (Backend.challengeBody
        { nonce := 1, address := "WALLET1", issued_at := 0, expires_at := 300 }).map Prod.fst := by
  refine ⟨by decide, by decide, by decide⟩

/-- C2 (amended): for every well-formed address a successful
`POST /auth/challenge` returns a body with exactly the fields nonce,
message, address and expires_at, whose message field is the serialization
the client must sign; but the frontend client does not agree with that
shape — its `Challenge` interface declares a different field set, and the
`WalletConnected` component reads a field named challenge that the response
body does not contain. -/
theorem c2_challenge_body_shape (c : Backend.Challenge) :
    (Backend.challengeBody c).map Prod.fst = ["nonce", "message", "address", "expires_at"] ∧
    (Backend.challengeBody c)[1]? = some ("message", Backend.serializeChallenge c) ∧
    ¬ (∀ f, f ∈ AuthService.challengeInterfaceFields ↔
          f ∈ (Backend.challengeBody c).map Prod.fst) ∧
    walletConnectedChallengeField ∉ (Backend.challengeBody c).map Prod.fst := by
  have hkeys : (Backend.challengeBody c).map Prod.fst
      = ["nonce", "message", "address", "expires_at"] := rfl
  refine ⟨hkeys, rfl, ?_, ?_⟩
  · intro hall
    have h1 := (hall "timestamp").mp (by decide)
    rw [hkeys] at h1
    exact absurd h1 (by decide)
  · rw [hkeys]
    decide

/-- C1: once a challenge has been successfully used by a `/auth/verify` call
(the nonce store entry is consumed), any later `/auth/verify` call
presenting that same challenge — after any sequence of backend operations
that never re-issues the consumed nonce — terminates in
`ChallengeExpiredOrUnknown`, for every address, every signature verdict and
every oracle report. -/
theorem c1_consumed_challenge_single_use (s : Backend.NonceStore)
    (now now' assetId assetId' : Nat) (r r' : Backend.VerifyRequest)
    (cred : Backend.SessionCredential) (ops : List Backend.Op)
    (huniq : ∀ p ∈ s, p.snd.nonce = r.nonce → p.fst = r.address)
    (hacc : (Backend.verifyEndpoint s now assetId r).fst = Backend.VerifyOutcome.accepted cred)
    (hfresh : ∀ op ∈ ops, Backend.opIntroduces r.nonce op = false)
    (hn : r'.nonce = r.nonce) :
    (Backend.verifyEndpoint
        (Backend.runOps (Backend.verifyEndpoint s now assetId r).snd ops)
        now' assetId' r').fst
      = Backend.VerifyOutcome.challengeExpiredOrUnknown := by
  obtain ⟨-, hsnd, -, -⟩ := Backend.verifyEndpoint_accepted_inv hacc
  have h0 : Backend.noNonce (Backend.verifyEndpoint s now assetId r).snd r.nonce := by
    rw [hsnd]
    intro p hp heq
    exact (Backend.mem_eraseKey hp).2 (huniq p (Backend.mem_eraseKey hp).1 heq)
  have h1 := Backend.noNonce_runOps ops h0 hfresh
  have h2 : Backend.noNonce
      (Backend.runOps (Backend.verifyEndpoint s now assetId r).snd ops) r'.nonce := by
    rw [hn]
    exact h1
  exact Backend.verifyEndpoint_expired_of_noNonce h2

/-- C1 witness: a concrete consumed challenge, followed by a re-issue with a
fresh nonce, is rejected on re-submission even with a valid signature. -/
theorem c1_witness :
    (Backend.verifyEndpoint
        (Backend.runOps
          (Backend.verifyEndpoint [("A", { nonce := 7, address := "A", issued_at := 0, expires_at := 300 })]
            0 5 { address := "A", nonce := 7, sigValid := true,
                  oracle := Backend.OracleResult.balance 1 }).snd
          [Backend.Op.issueOp "A" 9 10])
        20 5 { address := "A", nonce := 7, sigValid := true,
               oracle := Backend.OracleResult.balance 1 }).fst
      = Backend.VerifyOutcome.challengeExpiredOrUnknown :=
  c1_consumed_challenge_single_use
    [("A", { nonce := 7, address := "A", issued_at := 0, expires_at := 300 })]
    0 20 5 5
    { address := "A", nonce := 7, sigValid := true, oracle := Backend.OracleResult.balance 1 }
    { address := "A", nonce := 7, sigValid := true, oracle := Backend.OracleResult.balance 1 }
    (Backend.issueCredential "A" 5 0)
    [Backend.Op.issueOp "A" 9 10]
    (by decide) (by decide) (by decide) rfl

/-- C3: every verification reaching the Accepted state carries a credential
whose `expires_at` equals its `issued_at` plus 3600 seconds; the response
body has `token_type` Bearer and `expires_in` 3600; and a client computing
local expiry as `now + expires_in` (its clock reading `now` coinciding with
the credential's `issued_at`) obtains exactly the credential's expiry. -/
theorem c3_accepted_token_response (s : Backend.NonceStore) (now assetId : Nat)
    (r : Backend.VerifyRequest) (cred : Backend.SessionCredential) (tok : String)
    (hacc : (Backend.verifyEndpoint s now assetId r).fst = Backend.VerifyOutcome.accepted cred) :
    (Backend.acceptedResponse tok).token_type = "Bearer" ∧
    (Backend.acceptedResponse tok).expires_in = 3600 ∧
    cred.expires_at = cred.issued_at + 3600 ∧
    UseAuth.clientExpiry (cred.issued_at : Int) ((Backend.acceptedResponse tok).expires_in : Int)
      = (cred.expires_at : Int) := by
  obtain ⟨hcred, -, -, -⟩ := Backend.verifyEndpoint_accepted_inv hacc
  subst hcred
  refine ⟨rfl, rfl, rfl, ?_⟩
  unfold UseAuth.clientExpiry Backend.issueCredential Backend.acceptedResponse
    Backend.sessionLifetime
  push_cast
  ring

/-- C3 witness: the accepted-response clause at a concrete accepted
verification. -/
theorem c3_witness :
    (Backend.acceptedResponse "tok").token_type = "Bearer" ∧
    (Backend.acceptedResponse "tok").expires_in = 3600 ∧
    (Backend.issueCredential "WALLET1" 12345 10).expires_at
        = (Backend.issueCredential "WALLET1" 12345 10).issued_at + 3600 ∧
    UseAuth.clientExpiry ((Backend.issueCredential "WALLET1" 12345 10).issued_at : Int)
        ((Backend.acceptedResponse "tok").expires_in : Int)
      = ((Backend.issueCredential "WALLET1" 12345 10).expires_at : Int) :=
  c3_accepted_token_response
    [("WALLET1", { nonce := 7, address := "WALLET1", issued_at := 0, expires_at := 300 })]
    10 12345
    { address := "WALLET1", nonce := 7, sigValid := true,
      oracle := Backend.OracleResult.balance 1 }
    (Backend.issueCredential "WALLET1" 12345 10) "tok" (by decide)

/-- C4: a challenge issued at `now0` expires exactly 300 seconds later
(`expires_at = issued_at + 300`), and submitting it to `/auth/verify` at any
time strictly greater than `issued_at + 300` terminates in
`ChallengeExpiredOrUnknown`, whatever the submitted nonce, signature verdict
and oracle report. -/
theorem c4_challenge_ttl_expiry (s0 : Backend.NonceStore) (address : String)
    (nonce now0 now assetId : Nat) (r : Backend.VerifyRequest)
    (haddr : r.address = address) (hlate : now0 + 300 < now) :
    (Backend.issue s0 address nonce now0).fst.expires_at
        = (Backend.issue s0 address nonce now0).fst.issued_at + 300 ∧
    (Backend.verifyEndpoint (Backend.issue s0 address nonce now0).snd now assetId r).fst
        = Backend.VerifyOutcome.challengeExpiredOrUnknown := by
  constructor
  · rfl
  · have hl : Backend.lookupKey (Backend.issue s0 address nonce now0).snd r.address
        = some (Backend.issue s0 address nonce now0).fst := by
      rw [haddr]
      exact Backend.lookupKey_put_self s0 address _
    have hexp : ¬ (now ≤ (Backend.issue s0 address nonce now0).fst.expires_at) := by
      show ¬ (now ≤ now0 + Backend.challengeTTL)
      unfold Backend.challengeTTL
      omega
    unfold Backend.verifyEndpoint Backend.takeIfValid
    rw [hl]
    simp [hexp]

/-- C4 witness: a challenge issued at time 0 and submitted at time 301 with
a valid signature and positive balance is rejected as expired. -/
theorem c4_witness :
    (Backend.issue [] "W" 3 0).fst.expires_at = (Backend.issue [] "W" 3 0).fst.issued_at + 300 ∧
    (Backend.verifyEndpoint (Backend.issue [] "W" 3 0).snd 301 9
        { address := "W", nonce := 3, sigValid := true,
          oracle := Backend.OracleResult.balance 1 }).fst
      = Backend.VerifyOutcome.challengeExpiredOrUnknown :=
  c4_challenge_ttl_expiry [] "W" 3 0 301 9
    { address := "W", nonce := 3, sigValid := true, oracle := Backend.OracleResult.balance 1 }
    rfl (by decide)

/-- C5: when the Ownership Oracle reports `UpstreamUnavailable`, the
orchestrator never reaches `Accepted` (denies access), and whenever the
challenge was successfully consumed with a matching nonce and a valid
signature, the request fails with the `UpstreamUnavailable` error —
fail-closed, never fail-open. -/
theorem c5_upstream_fail_closed (s : Backend.NonceStore) (now assetId : Nat)
    (r : Backend.VerifyRequest)
    (h : r.oracle = Backend.OracleResult.upstreamUnavailable) :
    (∀ cred, (Backend.verifyEndpoint s now assetId r).fst ≠ Backend.VerifyOutcome.accepted cred) ∧
    (∀ c s1, Backend.takeIfValid s r.address now = (some c, s1) → c.nonce = r.nonce →
      r.sigValid = true →
      (Backend.verifyEndpoint s now assetId r).fst = Backend.VerifyOutcome.upstreamUnavailable) := by
  constructor
  · intro cred hacc
    obtain ⟨-, -, -, b, hor, -⟩ := Backend.verifyEndpoint_accepted_inv hacc
    rw [h] at hor
    exact Backend.OracleResult.noConfusion hor
  · intro c s1 htv hnc hsig
    unfold Backend.verifyEndpoint
    rw [htv]
    simp [hnc, hsig, h]

/-- C5 witness: a concrete request with a live challenge, matching nonce and
valid signature fails with `UpstreamUnavailable` when the oracle is down. -/
theorem c5_witness :
    (Backend.verifyEndpoint
        [("W", { nonce := 3, address := "W", issued_at := 0, expires_at := 300 })] 5 9
        { address := "W", nonce := 3, sigValid := true,
          oracle := Backend.OracleResult.upstreamUnavailable }).fst
      = Backend.VerifyOutcome.upstreamUnavailable :=
  (c5_upstream_fail_closed
      [("W", { nonce := 3, address := "W", issued_at := 0, expires_at := 300 })] 5 9
      { address := "W", nonce := 3, sigValid := true,
        oracle := Backend.OracleResult.upstreamUnavailable }
      rfl).2
    { nonce := 3, address := "W", issued_at := 0, expires_at := 300 } []
    (by decide) rfl rfl

/-- C6: the Signature Verifier returns false — and does not throw — on a
well-formed signature that fails the cryptographic check against the key
embedded in the address; a malformed signature encoding is the distinct
`MalformedSignature` error; an address failing checksum decoding is
`InvalidAddress` rather than a signature failure. -/
theorem c6_verifier_error_taxonomy {K S M : Type} (C : SigVerifier.CryptoScheme K S M)
    (address : String) (msg : M) (sig : String) :
    (∀ pk sg, C.decodeAddress address = some pk → C.decodeSignature sig = some sg →
      C.checkSig pk msg sg = false →
      SigVerifier.verify C address msg sig = Except.ok false) ∧
    (C.decodeAddress address = none →
      SigVerifier.verify C address msg sig
        = Except.error SigVerifier.VerifyError.invalidAddress) ∧
    (∀ pk, C.decodeAddress address = some pk → C.decodeSignature sig = none →
      SigVerifier.verify C address msg sig
        = Except.error SigVerifier.VerifyError.malformedSignature) := by
  refine ⟨?_, ?_, ?_⟩
  · intro pk sg h1 h2 h3
    unfold SigVerifier.verify
    simp [h1, h2, h3]
  · intro h1
    unfold SigVerifier.verify
    simp [h1]
  · intro pk h1 h2
    unfold SigVerifier.verify
    simp [h1, h2]

/-- C6 witness: a concrete scheme under which a well-formed but
non-verifying signature yields `Except.ok false`. -/
theorem c6_witness :
    SigVerifier.verify
      { decodeAddress := fun a => if a = "ADDR1" then some (1 : Nat) else none,
        decodeSignature := fun sg => if sg = "SIG1" then some (2 : Nat) else none,
        checkSig := fun _ (_ : Nat) _ => false }
      "ADDR1" (0 : Nat) "SIG1" = Except.ok false :=
  (c6_verifier_error_taxonomy _ "ADDR1" 0 "SIG1").1 1 2 (by simp) (by simp) rfl

/-- C7: N racing verify calls presenting the same valid, unexpired challenge
with a valid signature and positive balance — serialized in the order the
atomic `takeIfValid` grants them — produce exactly one `Accepted` and N-1
`ChallengeExpiredOrUnknown` outcomes. -/
theorem c7_concurrent_single_accept (s : Backend.NonceStore) (now assetId b n : Nat)
    (r : Backend.VerifyRequest) (c : Backend.Challenge)
    (hlook : Backend.lookupKey s r.address = some c)
    (hnonce : c.nonce = r.nonce)
    (htime : now ≤ c.expires_at)
    (hsig : r.sigValid = true)
    (horacle : r.oracle = Backend.OracleResult.balance b)
    (hb : b ≠ 0) (hn : 1 ≤ n) :
    ((Backend.runSameVerify s now assetId r n).fst.countP Backend.isAccepted = 1) ∧
    ((Backend.runSameVerify s now assetId r n).fst.countP Backend.isExpiredOrUnknown = n - 1) := by
  obtain ⟨k, rfl⟩ : ∃ k, n = k + 1 := ⟨n - 1, by omega⟩
  have h1 := @Backend.verifyEndpoint_success s now assetId r c b hlook hnonce htime hsig horacle hb
  have h2 : Backend.lookupKey (Backend.eraseKey s r.address) r.address = none :=
    Backend.lookupKey_eraseKey_self s r.address
  have hrun : Backend.runSameVerify s now assetId r (k + 1)
      = (Backend.VerifyOutcome.accepted (Backend.issueCredential r.address assetId now)
          :: List.replicate k Backend.VerifyOutcome.challengeExpiredOrUnknown,
         Backend.eraseKey s r.address) := by
    show (let step1 := Backend.verifyEndpoint s now assetId r
          let rest := Backend.runSameVerify step1.snd now assetId r k
          (step1.fst :: rest.fst, rest.snd)) = _
    rw [h1]
    simp only []
    rw [Backend.runSameVerify_notFound h2 k]
  rw [hrun]
  constructor
  · simp [List.countP_cons, Backend.isAccepted, Backend.countP_replicate_eq,
      Backend.isExpiredOrUnknown]
  · simp [List.countP_cons, Backend.isAccepted, Backend.countP_replicate_eq,
      Backend.isExpiredOrUnknown]

/-- C7 witness: three racing verify calls on a concrete live challenge give
one `Accepted` and two `ChallengeExpiredOrUnknown`. -/
theorem c7_witness :
    ((Backend.runSameVerify
        [("A", { nonce := 7, address := "A", issued_at := 0, expires_at := 300 })] 1 5
        { address := "A", nonce := 7, sigValid := true,
          oracle := Backend.OracleResult.balance 2 } 3).fst.countP Backend.isAccepted = 1) ∧
    ((Backend.runSameVerify
        [("A", { nonce := 7, address := "A", issued_at := 0, expires_at := 300 })] 1 5
        { address := "A", nonce := 7, sigValid := true,
          oracle := Backend.OracleResult.balance 2 } 3).fst.countP
        Backend.isExpiredOrUnknown = 3 - 1) :=
  c7_concurrent_single_accept
    [("A", { nonce := 7, address := "A", issued_at := 0, expires_at := 300 })] 1 5 2 3
    { address := "A", nonce := 7, sigValid := true, oracle := Backend.OracleResult.balance 2 }
    { nonce := 7, address := "A", issued_at := 0, expires_at := 300 }
    (by decide) rfl (by decide) rfl rfl (by decide) (by decide)

/-- C2 witness: the response body key list at a concrete challenge. -/
theorem c2_witness :
    (Backend.challengeBody
        { nonce := 1, address := "WALLET1", issued_at := 0, expires_at := 300 }).map Prod.fst
      = ["nonce", "message", "address", "expires_at"] :=
  (c2_challenge_body_shape
    { nonce := 1, address := "WALLET1", issued_at := 0, expires_at := 300 }).1
